import Mathlib

/-
  Verification development for the financeApp client core.

  Part 1 models the Conversation Engine of src/app/(tabs)/explore.tsx
  (the ChatBot component's sendMessage logic and message log).
  Part 2 models the Entity Data Loader of src/app/(tabs)/index.tsx
  (the App component's selection state and loadCompanyData pipeline).

  Conventions of the shallow embedding:
  * React `useState` variables become fields of an explicit state record;
    a `setX(v)` call becomes a functional record update.
  * An `async` handler becomes a pure function from the pre-state and the
    outcome of its awaited I/O to the post-state; the I/O outcome
    (network error / HTTP response / parsed body) is a parameter.
  * JavaScript `Date.now()` is a `now : Nat` parameter.
  * The spec's sender name `assistant` corresponds to the source's
    literal sender value `bot`.
-/

namespace FinanceApp

/-! ## Part 1: Conversation Engine (explore.tsx) -/

/-- The `sender` field of a ChatMessage: `'user' | 'bot'` (explore.tsx:18). -/
inductive Sender where
  | user
  | bot
deriving DecidableEq

/-- The ChatMessage interface (explore.tsx:17-22). `id` and `timestamp` are
always populated by the component, so they are modelled as plain fields. -/
structure ChatMessage where
  sender : Sender
  message : String
  id : String
  timestamp : Nat
deriving DecidableEq

/-- The component state of ChatBot (explore.tsx:85-87): the `messages`,
`inputText` and `isLoading` useState variables. `isLoading` is the spec's
`pending` flag. -/
structure ChatState where
  messages : List ChatMessage
  inputText : String
  isLoading : Bool
deriving DecidableEq

/-- One entry of the request's `history` array: the projection
`({ sender, message }) => ({ sender, message })` at explore.tsx:107-110
keeps only these two fields. -/
structure HistoryEntry where
  sender : Sender
  message : String
deriving DecidableEq

/-- The ApiRequest interface (explore.tsx:24-27). -/
structure ApiRequest where
  message : String
  history : List HistoryEntry
deriving DecidableEq

/-- One element of `content.parts`. The TypeScript type promises `text` to be
present, but the runtime check at explore.tsx:132 guards against its absence,
so the model keeps it optional. -/
structure ApiPart where
  text : Option String
deriving DecidableEq

/-- The `content` object of a candidate (explore.tsx:31-36); only `parts` is
consulted by the code. -/
structure ApiContent where
  parts : List ApiPart
deriving DecidableEq

/-- One candidate (explore.tsx:30-47); only `content` is consulted, and the
optional-chaining at explore.tsx:132 tolerates its absence. -/
structure ApiCandidate where
  content : Option ApiContent
deriving DecidableEq

/-- The parsed response body (explore.tsx:29-54); only `candidates` is used. -/
structure ApiResponse where
  candidates : List ApiCandidate
deriving DecidableEq

/-- The optional chain `data.candidates?.[0]?.content?.parts?.[0]?.text`
of explore.tsx:132, returning `none` when any link is missing. -/
def ApiResponse.extractText (r : ApiResponse) : Option String :=
  match r.candidates.head? with
  | none => none
  | some c =>
    match c.content with
    | none => none
    | some ct =>
      match ct.parts.head? with
      | none => none
      | some p => p.text

/-- The outcome of the awaited `fetch` at explore.tsx:115-128: either the
promise rejects (network error carrying the thrown Error's message), or a
response arrives with its `ok` flag, numeric `status`, and parsed JSON body. -/
inductive ChatOutcome where
  | networkError (msg : String)
  | response (ok : Bool) (status : Nat) (body : ApiResponse)
deriving DecidableEq

/-- JavaScript falsiness of the extracted text at explore.tsx:132:
`!text` is true when the chain broke (undefined) or the text is `""`. -/
def textFalsy : Option String → Bool
  | none => true
  | some t => t == ""

/-- A transport outcome the code treats as a failure: rejection, non-ok
status (explore.tsx:124-126), or falsy extracted text (explore.tsx:132-134). -/
def outcomeFails : ChatOutcome → Bool
  | .networkError _ => true
  | .response ok _ body => !ok || textFalsy (ApiResponse.extractText body)

/-- JavaScript's String.prototype.trim (used at explore.tsx:91, 95, 138):
drop whitespace from both ends, modelled on the underlying character list. -/
def jsTrim (s : String) : String :=
  ⟨((s.data.dropWhile Char.isWhitespace).reverse.dropWhile Char.isWhitespace).reverse⟩

/-- The user message appended at explore.tsx:93-98: trimmed input text,
stringified timestamp as id. -/
def userMessage (st : ChatState) (now : Nat) : ChatMessage :=
  { sender := .user
    message := jsTrim st.inputText
    id := toString now
    timestamp := now }

/-- The request body built at explore.tsx:105-111: the trimmed submitted text
plus the prior `messages` closure value projected to sender/message pairs
(the just-appended user message is not in this closure value). -/
def mkRequest (st : ChatState) : ApiRequest :=
  { message := jsTrim st.inputText
    history := st.messages.map fun m => { sender := m.sender, message := m.message } }

/-- The error message appended by the catch block at explore.tsx:147-152,
where `reason` is the thrown Error's message. -/
def errorReply (reason : String) (now : Nat) : ChatMessage :=
  { sender := .bot
    message := "Sorry, I encountered an error: " ++ reason ++ ". Please try again."
    id := toString (now + 1)
    timestamp := now }

/-- The second message appended by sendMessage, as a function of the transport
outcome: the bot reply of explore.tsx:136-141 on a valid response, otherwise
the catch block's error message for the corresponding thrown Error
(explore.tsx:124-134, 144-154). -/
def chatReply (o : ChatOutcome) (now : Nat) : ChatMessage :=
  match o with
  | .networkError msg => errorReply msg now
  | .response ok status body =>
    if ok = false then
      errorReply ("HTTP error! status: " ++ toString status) now
    else
      match ApiResponse.extractText body with
      | none => errorReply "Invalid response format from server" now
      | some t =>
        if t = "" then
          errorReply "Invalid response format from server" now
        else
          { sender := .bot, message := jsTrim t, id := toString (now + 1), timestamp := now }

/-- The sendMessage handler (explore.tsx:90-158) as a function of the
pre-state and the transport outcome. Returns the post-state together with the
request body that was sent (`none` when the guard at line 91 made the call a
no-op and no fetch was issued). On a non-no-op call the net state effect is:
append the user message, clear the input, append the reply (success or error),
and finish with `isLoading = false` (the finally block at line 155-157). -/
def sendMessage (st : ChatState) (o : ChatOutcome) (now : Nat) :
    ChatState × Option ApiRequest :=
  if jsTrim st.inputText = "" ∨ st.isLoading = true then
    (st, none)
  else
    ({ messages := st.messages ++ [userMessage st now, chatReply o now]
       inputText := ""
       isLoading := false },
     some (mkRequest st))

/-- The welcome text of explore.tsx:170. -/
def welcomeText : String :=
  "How can I help you today? I can answer finance-related questions. For example, you can ask me about stock prices, company specific news, or historical financial data."

/-- The synthetic welcome message installed by the mount effect
(explore.tsx:167-175). -/
def welcomeMessage (now : Nat) : ChatMessage :=
  { sender := .bot, message := welcomeText, id := "welcome", timestamp := now }

/-- The chat state right after the mount effect has run: the history holds
exactly the welcome message, the input is empty, nothing is pending
(explore.tsx:85-87, 167-175). -/
def initialChatState (now : Nat) : ChatState :=
  { messages := [welcomeMessage now], inputText := "", isLoading := false }

/-- The state transitions the ChatBot component performs on its state:
the mount effect installing the welcome message into the empty initial
history (explore.tsx:174), a sendMessage call with some transport outcome,
and an input-text edit via setInputText (explore.tsx:202). -/
inductive ChatStep : ChatState → ChatState → Prop where
  | welcome (t : String) (b : Bool) (now : Nat) :
      ChatStep { messages := [], inputText := t, isLoading := b }
               { messages := [welcomeMessage now], inputText := t, isLoading := b }
  | send (st : ChatState) (o : ChatOutcome) (now : Nat) :
      ChatStep st (sendMessage st o now).1
  | setInput (st : ChatState) (t : String) :
      ChatStep st { st with inputText := t }

/-- Every branch of chatReply produces a bot-sender message. -/
theorem chatReply_sender (o : ChatOutcome) (now : Nat) :
    (chatReply o now).sender = Sender.bot := by
  cases o with
  | networkError msg => rfl
  | response ok status body =>
    cases ok with
    | false => rfl
    | true =>
      simp only [chatReply]
      cases ApiResponse.extractText body with
      | none => rfl
      | some t =>
        by_cases h : t = "" <;> simp [h, errorReply]

/-- A concrete chat state used by the witnesses: empty history, input "hi",
not pending. -/
def sampleChatState : ChatState :=
  { messages := [], inputText := "hi", isLoading := false }

/-- C4: for every input whose trimmed text is non-empty, submitted while
pending is false, sendMessage appends exactly two messages to the history —
a user message first, then a bot (assistant/error) message — in that order,
and it terminates with pending (isLoading) = false on both the success and
the failure path. -/
theorem C4_submit_appends_two (st : ChatState) (o : ChatOutcome) (now : Nat)
    (hne : jsTrim st.inputText ≠ "") (hp : st.isLoading = false) :
    (sendMessage st o now).1.messages
        = st.messages ++ [userMessage st now, chatReply o now] ∧
    (userMessage st now).sender = Sender.user ∧
    (chatReply o now).sender = Sender.bot ∧
    (sendMessage st o now).1.isLoading = false := by
  have hg : ¬(jsTrim st.inputText = "" ∨ st.isLoading = true) := by
    simp [hne, hp]
  exact ⟨by simp [sendMessage, hg], rfl, chatReply_sender o now,
    by simp [sendMessage, hg]⟩

/-- Witness for C4 at a concrete state and a concrete failing outcome. -/
theorem C4_witness :
    (sendMessage sampleChatState (ChatOutcome.networkError "boom") 0).1.messages
        = sampleChatState.messages
            ++ [userMessage sampleChatState 0,
                chatReply (ChatOutcome.networkError "boom") 0] ∧
    (userMessage sampleChatState 0).sender = Sender.user ∧
    (chatReply (ChatOutcome.networkError "boom") 0).sender = Sender.bot ∧
    (sendMessage sampleChatState (ChatOutcome.networkError "boom") 0).1.isLoading
        = false :=
  C4_submit_appends_two sampleChatState (ChatOutcome.networkError "boom") 0
    (by decide) rfl

/-- C5: for every non-no-op submission, the request body sent to the
transport is exactly the submitted trimmed text as `message` together with
the prior history (the just-appended user message excluded), each entry
projected to its sender and message fields only; with empty prior history
the body's history is `[]`. -/
theorem C5_request_shape (st : ChatState) (o : ChatOutcome) (now : Nat)
    (hne : jsTrim st.inputText ≠ "") (hp : st.isLoading = false) :
    (sendMessage st o now).2
        = some { message := jsTrim st.inputText
                 history := st.messages.map
                   fun m => { sender := m.sender, message := m.message } } ∧
    (st.messages = [] →
      (sendMessage st o now).2
        = some { message := jsTrim st.inputText, history := [] }) := by
  have hg : ¬(jsTrim st.inputText = "" ∨ st.isLoading = true) := by
    simp [hne, hp]
  constructor
  · simp [sendMessage, hg, mkRequest]
  · intro hemp
    simp [sendMessage, hg, mkRequest, hemp]

/-- Witness for C5 at a concrete state with empty prior history. -/
theorem C5_witness :
    (sendMessage sampleChatState (ChatOutcome.networkError "boom") 0).2
        = some { message := jsTrim sampleChatState.inputText
                 history := sampleChatState.messages.map
                   fun m => { sender := m.sender, message := m.message } } ∧
    (sampleChatState.messages = [] →
      (sendMessage sampleChatState (ChatOutcome.networkError "boom") 0).2
        = some { message := jsTrim sampleChatState.inputText, history := [] }) :=
  C5_request_shape sampleChatState (ChatOutcome.networkError "boom") 0
    (by decide) rfl

/-- C6: sendMessage called while pending, or with input whose trim is empty,
is a no-op: the state (history and pending flag included) is unchanged and
no transport request is issued. -/
theorem C6_noop (st : ChatState) (o : ChatOutcome) (now : Nat)
    (h : st.isLoading = true ∨ jsTrim st.inputText = "") :
    sendMessage st o now = (st, none) := by
  have hg : jsTrim st.inputText = "" ∨ st.isLoading = true := h.symm
  simp [sendMessage, hg]

/-- Witness for C6: a pending state with non-empty input is left unchanged. -/
theorem C6_witness :
    sendMessage { messages := [], inputText := "hi", isLoading := true }
        (ChatOutcome.networkError "boom") 0
      = ({ messages := [], inputText := "hi", isLoading := true }, none) :=
  C6_noop { messages := [], inputText := "hi", isLoading := true }
    (ChatOutcome.networkError "boom") 0 (Or.inl rfl)

/-- C7: for every transport outcome the code treats as a failure (network
error, non-ok status, or missing/empty extracted candidate text), a non-no-op
sendMessage appends a bot-sender message whose text is the non-empty
human-readable error wrapper; the handler is a total function of the outcome,
modelling that it never rejects outward. -/
theorem C7_failure_reply (st : ChatState) (o : ChatOutcome) (now : Nat)
    (hne : jsTrim st.inputText ≠ "") (hp : st.isLoading = false)
    (hf : outcomeFails o = true) :
    ∃ reason,
      (sendMessage st o now).1.messages
          = st.messages ++ [userMessage st now, errorReply reason now] ∧
      (errorReply reason now).sender = Sender.bot ∧
      (errorReply reason now).message ≠ "" := by
  have hg : ¬(jsTrim st.inputText = "" ∨ st.isLoading = true) := by
    simp [hne, hp]
  obtain ⟨reason, hr⟩ : ∃ reason, chatReply o now = errorReply reason now := by
    cases o with
    | networkError msg => exact ⟨msg, rfl⟩
    | response ok status body =>
      cases ok with
      | false => exact ⟨"HTTP error! status: " ++ toString status, rfl⟩
      | true =>
        simp only [outcomeFails, Bool.not_true, Bool.false_or] at hf
        cases hx : ApiResponse.extractText body with
        | none =>
          exact ⟨"Invalid response format from server", by simp [chatReply, hx]⟩
        | some t =>
          rw [hx] at hf
          simp only [textFalsy, beq_iff_eq] at hf
          exact ⟨"Invalid response format from server", by simp [chatReply, hx, hf]⟩
  refine ⟨reason, ?_, rfl, ?_⟩
  · simp [sendMessage, hg, hr]
  · intro hmt
    have hl := congrArg String.length hmt
    simp [errorReply, String.length_append] at hl
    exact absurd hl.2 (by decide)

/-- Witness for C7 at a concrete non-ok HTTP response. -/
theorem C7_witness :
    ∃ reason,
      (sendMessage sampleChatState
          (ChatOutcome.response false 500 { candidates := [] }) 0).1.messages
          = sampleChatState.messages
              ++ [userMessage sampleChatState 0, errorReply reason 0] ∧
      (errorReply reason 0).sender = Sender.bot ∧
      (errorReply reason 0).message ≠ "" :=
  C7_failure_reply sampleChatState
    (ChatOutcome.response false 500 { candidates := [] }) 0
    (by decide) rfl (by decide)

/-- C9: the history is initialized by the mount effect with a single
synthetic welcome message whose sender is bot (the spec's assistant), and
every state transition of the chat component leaves the history unchanged or
appends messages at its end — never mutating or removing an earlier one. -/
theorem C9_append_only (now : Nat) (st st' : ChatState) (h : ChatStep st st') :
    ((initialChatState now).messages = [welcomeMessage now] ∧
      (welcomeMessage now).sender = Sender.bot) ∧
    ∃ tail, st'.messages = st.messages ++ tail := by
  refine ⟨⟨rfl, rfl⟩, ?_⟩
  cases h with
  | welcome t b now2 => exact ⟨[welcomeMessage now2], rfl⟩
  | send st o now2 =>
    by_cases hg : jsTrim st.inputText = "" ∨ st.isLoading = true
    · exact ⟨[], by simp [sendMessage, hg]⟩
    · exact ⟨[userMessage st now2, chatReply o now2], by simp [sendMessage, hg]⟩
  | setInput st t => exact ⟨[], by simp⟩

/-- Witness for C9 at a concrete input-edit transition. -/
theorem C9_witness :
    ((initialChatState 0).messages = [welcomeMessage 0] ∧
      (welcomeMessage 0).sender = Sender.bot) ∧
    ∃ tail, ({ initialChatState 0 with inputText := "x" } : ChatState).messages
        = (initialChatState 0).messages ++ tail :=
  C9_append_only 0 (initialChatState 0) _
    (ChatStep.setInput (initialChatState 0) "x")

/-! ## Part 2: Entity Data Loader (index.tsx) -/

/-- The closed company enumeration COMPANIES (index.tsx:20-23); the
`Company` type is `typeof COMPANIES[number]` (index.tsx:26). -/
inductive Company where
  | AAPL
  | GOOG
  | MSFT
  | AMZN
  | META
  | TSLA
  | NFLX
  | ADBE
  | INTC
  | DELL
deriving DecidableEq

/-- The ticker string of a company, as it appears in the COMPANIES array. -/
def Company.symbol : Company → String
  | .AAPL => "AAPL"
  | .GOOG => "GOOG"
  | .MSFT => "MSFT"
  | .AMZN => "AMZN"
  | .META => "META"
  | .TSLA => "TSLA"
  | .NFLX => "NFLX"
  | .ADBE => "ADBE"
  | .INTC => "INTC"
  | .DELL => "DELL"

/-- The COMPANIES array (index.tsx:20-23), in source order. -/
def COMPANIES : List Company :=
  [.AAPL, .GOOG, .MSFT, .AMZN, .META, .TSLA, .NFLX, .ADBE, .INTC, .DELL]

/-- The CompanyDetails interface (index.tsx:28-42). -/
structure CompanyDetails where
  industry : String
  currentPrice : String
  address1 : String
  city : String
  state : String
  country : String
  zip : String
  totalRevenue : String
  marketCap : String
  website : String
  trailingPE : String
  dividendYield : String
  beta : String
deriving DecidableEq

/-- The component state of App (index.tsx:120-125): the `selectedCompany`,
`companyDetails`, `companyImage`, `isDropdownVisible`, `isLoading` and
`error` useState variables. This is the spec's SelectionState: `current` is
`selectedCompany`, `details` is `companyDetails`, `artifactPath` is
`companyImage`, `loading` is `isLoading`. -/
structure AppState where
  selectedCompany : Company
  companyDetails : Option CompanyDetails
  companyImage : Option String
  isDropdownVisible : Bool
  isLoading : Bool
  error : Option String
deriving DecidableEq

/-- The initial useState values of App (index.tsx:120-125):
`selectedCompany = COMPANIES[0]`, both payloads and the error absent, the
dropdown hidden, and `isLoading` already true (`useState(true)`). -/
def initialAppState : AppState :=
  { selectedCompany := COMPANIES.get ⟨0, by decide⟩
    companyDetails := none
    companyImage := none
    isDropdownVisible := false
    isLoading := true
    error := none }

/-- The handleCompanySelect handler (index.tsx:165-168):
`setSelectedCompany(company); setIsDropdownVisible(false)`. -/
def handleCompanySelect (st : AppState) (c : Company) : AppState :=
  { st with selectedCompany := c, isDropdownVisible := false }

/-- The synchronous prefix of loadCompanyData (index.tsx:131-133):
`setIsLoading(true); setError(null)` — note that neither `companyDetails`
nor `companyImage` is reset here. -/
def loadStart (st : AppState) : AppState :=
  { st with isLoading := true, error := none }

/-- One selection event: handleCompanySelect followed by React's effect
`useEffect(loadCompanyData, [selectedCompany])` (index.tsx:127-129). The
effect body runs — issuing the two fetches — exactly when the new dependency
value differs from the previous one; the returned Bool records whether the
fetches were issued. -/
def selectEvent (st : AppState) (c : Company) : AppState × Bool :=
  let st1 := handleCompanySelect st c
  if c = st.selectedCompany then (st1, false) else (loadStart st1, true)

/-- The outcome of the awaited `fetch` inside fetchCompanyDetails
(index.tsx:150): rejection (network error carrying the thrown message), or a
response with its `ok` flag, `statusText`, and — when consumed — parsed
JSON body. -/
inductive DetailsFetch where
  | networkError (msg : String)
  | response (ok : Bool) (statusText : String) (data : CompanyDetails)
deriving DecidableEq

/-- fetchCompanyDetails (index.tsx:149-156) as a function of the fetch
outcome: a non-ok response throws
`Failed to fetch company details: <statusText>`, otherwise the parsed
details are produced (and will be written by `setCompanyDetails`). -/
def runFetchCompanyDetails : DetailsFetch → Except String CompanyDetails
  | .networkError msg => .error msg
  | .response ok statusText data =>
    if ok = true then .ok data
    else .error ("Failed to fetch company details: " ++ statusText)

/-- The cache file path derived at index.tsx:160:
cacheDirectory + symbol + ".jpg" — deterministic per company. -/
def cacheFileName (cacheDirectory : String) (c : Company) : String :=
  cacheDirectory ++ c.symbol ++ ".jpg"

/-- The outcome of `FileSystem.downloadAsync` inside fetchCompanyImage
(index.tsx:158-163): rejection with a message, or a downloaded file whose
`uri` will be written by `setCompanyImage`. -/
inductive ImageFetch where
  | downloadError (msg : String)
  | downloaded (uri : String)
deriving DecidableEq

/-- fetchCompanyImage's result (index.tsx:158-163) as a function of the
download outcome. -/
def runFetchCompanyImage : ImageFetch → Except String String
  | .downloadError msg => .error msg
  | .downloaded uri => .ok uri

/-- `setCompanyDetails(data)` (index.tsx:155): the continuation that runs
when a details fetch resolves successfully. It writes unconditionally — the
source contains no comparison of the fetch's originating company against the
then-current `selectedCompany`. -/
def applyDetailsSuccess (st : AppState) (d : CompanyDetails) : AppState :=
  { st with companyDetails := some d }

/-- `setCompanyImage(uri)` (index.tsx:162): the continuation that runs when
an image download resolves successfully; like `setCompanyDetails` it carries
no staleness guard. -/
def applyImageSuccess (st : AppState) (uri : String) : AppState :=
  { st with companyImage := some uri }

/-- The state writes performed by the two sub-fetch continuations once both
have settled: each successful half has already called its setter
(index.tsx:155, 162), regardless of how the other half fared. -/
def applySubFetchSetters (st : AppState) (dRes : Except String CompanyDetails)
    (iRes : Except String String) : AppState :=
  let st1 := match dRes with
    | .ok d => applyDetailsSuccess st d
    | .error _ => st
  match iRes with
  | .ok uri => applyImageSuccess st1 uri
  | .error _ => st1

/-- The rejection that `Promise.all` (index.tsx:136-139) surfaces to the
catch block: the message of whichever sub-fetch rejected first in time
(`detailsFirst` says which settled first when both reject), `none` when both
resolved. -/
def firstFailure (dRes : Except String CompanyDetails)
    (iRes : Except String String) (detailsFirst : Bool) : Option String :=
  match dRes, iRes with
  | .error m, .error m2 => some (if detailsFirst then m else m2)
  | .error m, .ok _ => some m
  | .ok _, .error m => some m
  | .ok _, .ok _ => none

/-- The settled state of one loadCompanyData run (index.tsx:131-147), given
the pre-state at the time the fetches were issued and both sub-fetch
results: the successful halves' setters have run, the catch block has set
`error` to the first rejection's message when any half failed
(index.tsx:140-143), and the finally block has cleared `isLoading`
(index.tsx:144-146). Assumes no further selection intervened. -/
def loadSettle (st : AppState) (dRes : Except String CompanyDetails)
    (iRes : Except String String) (detailsFirst : Bool) : AppState :=
  let st1 := applySubFetchSetters st dRes iRes
  match firstFailure dRes iRes detailsFirst with
  | some m => { st1 with error := some m, isLoading := false }
  | none => { st1 with isLoading := false }

/-- A concrete CompanyDetails record used by counterexamples and witnesses. -/
def sampleDetails : CompanyDetails :=
  { industry := "Internet Content and Information"
    currentPrice := "170.10"
    address1 := "1600 Amphitheatre Parkway"
    city := "Mountain View"
    state := "CA"
    country := "United States"
    zip := "94043"
    totalRevenue := "328284000000"
    marketCap := "2100000000000"
    website := "https://abc.xyz"
    trailingPE := "25.3"
    dividendYield := "0.005"
    beta := "1.05" }

/-- A concrete pre-selection state with a previously loaded payload: AAPL is
current, its details and cached image are present, nothing is in flight. -/
def staleState : AppState :=
  { selectedCompany := .AAPL
    companyDetails := some sampleDetails
    companyImage := some "file:///cache/AAPL.jpg"
    isDropdownVisible := true
    isLoading := false
    error := none }

/-- The settled state of the C1 scenario: select TSLA from the initial
state, the details fetch answers HTTP 500 (non-ok, statusText
"Internal Server Error"), the image download succeeds. -/
def c1Settled : AppState :=
  loadSettle (selectEvent initialAppState Company.TSLA).1
    (runFetchCompanyDetails
      (DetailsFetch.response false "Internal Server Error" sampleDetails))
    (runFetchCompanyImage (ImageFetch.downloaded "file:///cache/TSLA.jpg"))
    true

/-- The final state of the C2 scenario: select GOOG, supersede it with
TSLA before GOOG's fetches settle, then GOOG's details fetch resolves
successfully and its continuation `setCompanyDetails` runs. -/
def c2Final : AppState :=
  applyDetailsSuccess
    (selectEvent (selectEvent initialAppState Company.GOOG).1 Company.TSLA).1
    sampleDetails

/-- The first projection of a selection event always carries the newly
selected company, whichever branch the effect guard takes. -/
theorem selectEvent_selectedCompany (st : AppState) (c : Company) :
    (selectEvent st c).1.selectedCompany = c := by
  by_cases h : c = st.selectedCompany <;>
    simp [selectEvent, handleCompanySelect, loadStart, h]

/-- C1 fails on the code: in the select(TSLA) scenario where the details
fetch returns HTTP 500 while the artifact download succeeded, the settled
state does set a non-empty error and clear loading, but `companyImage` (the
spec's artifactPath) is present — the successful half's setter already ran
and nothing clears it. -/
theorem C1_counterexample :
    c1Settled.error = some "Failed to fetch company details: Internal Server Error" ∧
    c1Settled.isLoading = false ∧
    c1Settled.companyImage = some "file:///cache/TSLA.jpg" := by
  refine ⟨by decide, rfl, rfl⟩

/-- C1 (amended): for every load whose details fetch fails with a non-ok
HTTP response while the artifact download succeeds, the settled state has a
non-empty error and loading = false, but the payload fields are NOT absent:
the successful artifact sub-fetch leaves artifactPath set to the downloaded
uri, and details keeps whatever value the pre-state had (stale data is not
cleared). -/
theorem C1_amended_failure_state (st : AppState) (statusText uri : String)
    (d : CompanyDetails) (detailsFirst : Bool) :
    ∃ m, m ≠ "" ∧
      loadSettle st
          (runFetchCompanyDetails (DetailsFetch.response false statusText d))
          (runFetchCompanyImage (ImageFetch.downloaded uri)) detailsFirst
        = { st with error := some m, isLoading := false, companyImage := some uri } := by
  refine ⟨"Failed to fetch company details: " ++ statusText, ?_, rfl⟩
  intro h
  have hl := congrArg String.length h
  simp [String.length_append] at hl
  exact absurd hl.1 (by decide)

/-- C2 fails on the code: after select(GOOG) is superseded by select(TSLA),
a late successful resolution of GOOG's details fetch still writes its
payload — `setCompanyDetails` runs with no staleness guard — even though
`selectedCompany` remains TSLA. -/
theorem C2_counterexample :
    c2Final.selectedCompany = Company.TSLA ∧
    c2Final.companyDetails = some sampleDetails := ⟨rfl, rfl⟩

/-- C2 (amended): when select(a) is superseded by select(b), the current
selection remains b, but a later successful completion of a's details fetch
IS applied: its payload is written into `companyDetails` unconditionally,
because the resolution continuation carries no comparison against the
then-current selection. -/
theorem C2_amended_late_write (st : AppState) (a b : Company)
    (d : CompanyDetails) (hab : a ≠ b) :
    (applyDetailsSuccess (selectEvent (selectEvent st a).1 b).1 d).selectedCompany
        = b ∧
    (applyDetailsSuccess (selectEvent (selectEvent st a).1 b).1 d).companyDetails
        = some d := by
  constructor
  · simp [applyDetailsSuccess, selectEvent_selectedCompany]
  · rfl

/-- Witness for C2 (amended) at the concrete GOOG-then-TSLA scenario. -/
theorem C2_witness :
    (applyDetailsSuccess
        (selectEvent (selectEvent initialAppState Company.GOOG).1 Company.TSLA).1
        sampleDetails).selectedCompany = Company.TSLA ∧
    (applyDetailsSuccess
        (selectEvent (selectEvent initialAppState Company.GOOG).1 Company.TSLA).1
        sampleDetails).companyDetails = some sampleDetails :=
  C2_amended_late_write initialAppState Company.GOOG Company.TSLA sampleDetails
    (by decide)

/-- C3 fails on the code: selecting TSLA from a state holding AAPL's loaded
payload leaves both `companyDetails` and `companyImage` untouched — the
synchronous prefix of loadCompanyData resets only `error` and `isLoading`,
so stale data from the previous entity remains in the state during the new
load. -/
theorem C3_counterexample :
    (selectEvent staleState Company.TSLA).1.companyDetails = some sampleDetails ∧
    (selectEvent staleState Company.TSLA).1.companyImage
        = some "file:///cache/AAPL.jpg" := ⟨rfl, rfl⟩

/-- C3 (amended): selecting an entity different from the current one
immediately replaces the current selection, sets loading = true and resets
error to absent, and the two fetches are issued — but details and
artifactPath are left unchanged, not reset to absent. -/
theorem C3_amended_select_effect (st : AppState) (c : Company)
    (h : c ≠ st.selectedCompany) :
    (selectEvent st c).1.selectedCompany = c ∧
    (selectEvent st c).1.isLoading = true ∧
    (selectEvent st c).1.error = none ∧
    (selectEvent st c).1.companyDetails = st.companyDetails ∧
    (selectEvent st c).1.companyImage = st.companyImage ∧
    (selectEvent st c).2 = true := by
  simp [selectEvent, handleCompanySelect, loadStart, h]

/-- Witness for C3 (amended): selecting TSLA over a current AAPL. -/
theorem C3_witness :
    (selectEvent staleState Company.TSLA).1.selectedCompany = Company.TSLA ∧
    (selectEvent staleState Company.TSLA).1.isLoading = true ∧
    (selectEvent staleState Company.TSLA).1.error = none ∧
    (selectEvent staleState Company.TSLA).1.companyDetails
        = staleState.companyDetails ∧
    (selectEvent staleState Company.TSLA).1.companyImage
        = staleState.companyImage ∧
    (selectEvent staleState Company.TSLA).2 = true :=
  C3_amended_select_effect staleState Company.TSLA (by decide)

/-- C8 fails on the code: reselecting AAPL while AAPL is already current
does not issue the fetches — the load effect is keyed on the selection
value, which did not change. -/
theorem C8_counterexample :
    (selectEvent initialAppState Company.AAPL).2 = false := rfl

/-- C8 (amended): a selection event issues the two transport fetches
exactly when the selected entity differs from the current one; reselecting
the entity that is already current is short-circuited by the effect's
dependency comparison and triggers no new load. -/
theorem C8_amended_refetch_iff_changed (st : AppState) (c : Company) :
    (selectEvent st c).2 = true ↔ c ≠ st.selectedCompany := by
  by_cases h : c = st.selectedCompany <;> simp [selectEvent, h]

/-- C10: at construction of the App component, before any load settles, the
state already has loading = true, details, artifactPath and error absent,
and the current selection equal to the first entity of the enumeration —
there is no idle state preceding the first load. -/
theorem C10_initial_state :
    initialAppState.isLoading = true ∧
    initialAppState.companyDetails = none ∧
    initialAppState.companyImage = none ∧
    initialAppState.error = none ∧
    COMPANIES.head? = some initialAppState.selectedCompany :=
  ⟨rfl, rfl, rfl, rfl, rfl⟩

end FinanceApp
